import Mathlib

/-!
Verification development for the jee-test-app repository.

Shallow embedding of the test-taking session engine:
* the Answer Judge `isAnswerCorrect` (two source copies: the report page in
  `src/lib/supabaseClient.ts` and the `calculate-score` edge function in
  `src/app/test/[attemptId]/page.tsx`),
* the scoring/report engine `generateReport` (report page) and the
  server-side score recomputation loop (edge function),
* the per-question state machine and navigation / answer-edit handlers of the
  test page, and
* a cooperative event-loop model of the session timer and submission guard.

JavaScript runtime values are modelled by the inductive type `Value`; numbers
are modelled as exact rationals (the rational denoted by the decimal literal a
JS double was written as).  Fallible parsing (`parseFloat` producing `NaN`) is
modelled with `Option ℚ`.
-/

namespace JeeTest

/-- Embedding of the JavaScript values that flow through the engine: `null`,
`undefined`, strings, (finite) numbers as exact rationals, booleans, arrays. -/
inductive Value where
  | vNull : Value
  | vUndefined : Value
  | vStr : String → Value
  | vNum : ℚ → Value
  | vBool : Bool → Value
  | vArr : List Value → Value
deriving Repr

/-- JavaScript truthiness: `null`, `undefined`, `""`, `0` and `false` are
falsy; every other value (including every array object) is truthy. -/
def truthy : Value → Bool
  | .vNull => false
  | .vUndefined => false
  | .vStr s => s != ""
  | .vNum q => decide (q ≠ 0)
  | .vBool b => b
  | .vArr _ => true

/-- Pads a digit string with leading zero characters up to length `len`. -/
def padZeros (s : String) (len : Nat) : String :=
  String.mk (List.replicate (len - s.length) '0') ++ s

/-- Drops trailing zero characters (used when rendering a fractional part). -/
def stripTrailingZeros (s : String) : String :=
  String.mk ((s.toList.reverse.dropWhile (fun c => c == '0')).reverse)

/-- Rendering of a JS number by `String(...)`, modelled on exact rationals.
An integer renders as its decimal digits; a rational with a power-of-ten
denominator (every numeric literal of the application's data is of this form)
renders as its decimal expansion with trailing zeros stripped, matching the
shortest-round-trip rendering JS applies to such doubles.  Other rationals
(unreachable from the code's data) fall back to a fraction rendering. -/
def jsNumToString (q : ℚ) : String :=
  if q.den = 1 then toString q.num
  else
    let scaled : ℚ := q * ((10 : ℚ) ^ (20 : Nat))
    if scaled.den = 1 then
      let m := scaled.num.natAbs
      let sign := if q.num < 0 then "-" else ""
      let ip := m / 10 ^ (20 : Nat)
      let fp := m % 10 ^ (20 : Nat)
      sign ++ toString ip ++ "." ++ stripTrailingZeros (padZeros (toString fp) 20)
    else toString q.num ++ "/" ++ toString q.den

mutual

/-- JavaScript `String(x)` coercion on embedded values. -/
def jsToString : Value → String
  | .vNull => "null"
  | .vUndefined => "undefined"
  | .vStr s => s
  | .vNum q => jsNumToString q
  | .vBool b => if b then "true" else "false"
  | .vArr xs => jsArrToString xs

/-- JavaScript `Array.prototype.toString`: elements joined by commas, with
`null` and `undefined` elements rendering as the empty string. -/
def jsArrToString : List Value → String
  | [] => ""
  | [v] => jsItemToString v
  | v :: rest => jsItemToString v ++ "," ++ jsArrToString rest

/-- Rendering of one array element inside `Array.prototype.join`. -/
def jsItemToString : Value → String
  | .vNull => ""
  | .vUndefined => ""
  | .vStr s => s
  | .vNum q => jsNumToString q
  | .vBool b => if b then "true" else "false"
  | .vArr xs => jsArrToString xs

end

/-- Splits off the maximal run of leading decimal digits. -/
def takeDigits : List Char → List Char × List Char
  | [] => ([], [])
  | c :: cs =>
    if c.isDigit then
      let (d, r) := takeDigits cs
      (c :: d, r)
    else ([], c :: cs)

/-- Numeric value of a digit run. -/
def digitsToNat (ds : List Char) : Nat :=
  ds.foldl (fun n c => n * 10 + (c.toNat - 48)) 0

/-- Consumes an optional leading sign; returns `true` when negative. -/
def parseSign : List Char → Bool × List Char
  | '-' :: cs => (true, cs)
  | '+' :: cs => (false, cs)
  | cs => (false, cs)

/-- Consumes an optional exponent suffix `e`/`E` with optional sign; an
exponent marker not followed by a digit contributes exponent `0`, as
`parseFloat` then stops before the marker. -/
def parseExponent : List Char → Int
  | c :: cs =>
    if c == 'e' || c == 'E' then
      let (neg, cs1) := parseSign cs
      let (ds, _) := takeDigits cs1
      if ds.isEmpty then 0
      else if neg then -(digitsToNat ds : Int) else (digitsToNat ds : Int)
    else 0
  | [] => 0

/-- Model of JavaScript `parseFloat` on a string: skip leading whitespace,
parse the longest prefix of the form `[+-]digits[.digits][e[+-]digits]` and
return its exact rational value; return `none` (the model of `NaN`) when no
digit is found.  The `Infinity` literal, accepted by `parseFloat` but never
produced by the application's data, is not modelled. -/
def parseFloatString (s : String) : Option ℚ :=
  let cs := s.toList.dropWhile (fun c => c == ' ' || c == '\t' || c == '\n' || c == '\r')
  let (neg, cs1) := parseSign cs
  let (ints, cs2) := takeDigits cs1
  let (fracs, cs3) :=
    match cs2 with
    | '.' :: rest => takeDigits rest
    | _ => ([], cs2)
  if ints.isEmpty && fracs.isEmpty then none
  else
    let e := parseExponent cs3
    let mant : ℚ := (digitsToNat ints : ℚ) + (digitsToNat fracs : ℚ) / ((10 : ℚ) ^ fracs.length)
    let v := mant * (10 : ℚ) ^ e
    some (if neg then -v else v)

/-- Model of `parseFloat(x)` on an arbitrary value: JS first coerces the
argument with `ToString` and then parses; on a finite number that round trip
is the identity, which the `vNum` case states directly. -/
def parseFloatV : Value → Option ℚ
  | .vNum q => some q
  | v => parseFloatString (jsToString v)

/-- Test `selected === null || selected === undefined || selected === ""`
from the head guard of both `isAnswerCorrect` copies (strict equality: only
the string `""` matches the third disjunct). -/
def isEmptySelected : Value → Bool
  | .vNull => true
  | .vUndefined => true
  | .vStr s => s == ""
  | _ => false

/-- Answer Judge transcribed from `isAnswerCorrect` in the report page
(`src/lib/supabaseClient.ts`, lines 123–159): guard on empty selection, guard
on `correct` not being a non-empty array, then dispatch on the question type;
`SINGLE_CHOICE` compares `String(selected) === String(correct[0])`,
`NUMERICAL` parses both sides with `parseFloat` and accepts iff the absolute
difference is strictly below `0.01`; any other type falls through to
`false`.  The `try`/`catch` of the source cannot fire in the embedding: every
operation used is total, so the function is total by construction. -/
def isAnswerCorrect (qType : String) (selected : Value) (correct : Value) : Bool :=
  if isEmptySelected selected then false
  else
    match correct with
    | .vArr (correctAnswer :: _) =>
      if qType == "SINGLE_CHOICE" then
        jsToString selected == jsToString correctAnswer
      else if qType == "NUMERICAL" then
        match parseFloatV selected, parseFloatV correctAnswer with
        | some selectedNum, some correctNum => decide (|correctNum - selectedNum| < 1 / 100)
        | _, _ => false
      else false
    | _ => false

/-- Answer Judge transcribed from the second source copy, `isAnswerCorrect`
in the `calculate-score` edge function
(`supabase/functions/calculate-score/index.ts`, lines 604–629 of the bundled
source): the body is textually identical to the report-page copy. -/
def isAnswerCorrectServer (qType : String) (selected : Value) (correct : Value) : Bool :=
  if isEmptySelected selected then false
  else
    match correct with
    | .vArr (correctAnswer :: _) =>
      if qType == "SINGLE_CHOICE" then
        jsToString selected == jsToString correctAnswer
      else if qType == "NUMERICAL" then
        match parseFloatV selected, parseFloatV correctAnswer with
        | some selectedNum, some correctNum => decide (|correctNum - selectedNum| < 1 / 100)
        | _, _ => false
      else false
    | _ => false

/-- Report classification of one question: the three-valued `status` of the
report page and the three branches of the server loop. -/
inductive RStatus where
  | CORRECT : RStatus
  | INCORRECT : RStatus
  | UNATTEMPTED : RStatus
deriving DecidableEq, Repr

/-- Joined `Questions` row as consumed by the two scoring loops.  The report
page selects `Questions(*)`; the edge function selects only `question_id`,
`question_type`, `correct_answer` (a subset of these fields). -/
structure QuestionRow where
  question_id : String
  question_type : String
  subject : Option String
  correct_answer : Value
  question_text : Option String
  solution_text : Option String
deriving Repr

/-- Shape of the joined `Questions` field of one `Test_Questions_Link` row as
delivered by the store: absent (`null`/`undefined`), a bare (non-array)
object, or an array whose elements may themselves be `null`. -/
inductive QuestionsField where
  | missing : QuestionsField
  | obj : QuestionRow → QuestionsField
  | arr : List (Option QuestionRow) → QuestionsField
deriving Repr

/-- Tests for the bare-object shape, the one on which the two loops' row
resolution differs. -/
def QuestionsField.isObj : QuestionsField → Bool
  | .obj _ => true
  | _ => false

/-- One `Test_Questions_Link` row joined with its `Questions` data. -/
structure Link where
  question_number : Int
  questions : QuestionsField
deriving Repr

/-- Row resolution of the report page's loop (`src/lib/supabaseClient.ts`
lines 237–244): `continue` when `link.Questions` is falsy, not an array, or
an empty array; otherwise take `link.Questions[0]` and `continue` when that
element is falsy. -/
def resolveClient : QuestionsField → Option QuestionRow
  | .arr (some q :: _) => some q
  | _ => none

/-- Row resolution of the edge function's loop (`calculate-score`, line 686):
`link.Questions && Array.isArray(link.Questions) ? link.Questions[0]
: link.Questions`, then `continue` when the result is falsy — so a bare
object row IS resolved here, unlike in the report page's loop. -/
def resolveServer : QuestionsField → Option QuestionRow
  | .obj q => some q
  | .arr (some q :: _) => some q
  | _ => none

/-- Stored `AnswerResponse` rows of one attempt, as the `answerMap` built by
both loops: `question_id ↦ selected_answer`. -/
def AnswerMap := List (String × Value)

/-- Lookup `answerMap.get(question_id) || null` (both loops): an absent key
yields `undefined`, and `|| null` collapses every falsy value — absent, `""`,
`0`, `false` — to `null`. -/
def lookupAnswer (answers : AnswerMap) (qid : String) : Value :=
  match List.find? (fun p => p.1 == qid) answers with
  | some (_, v) => if truthy v then v else Value.vNull
  | none => Value.vNull

/-- Subject bucket key `(q.subject || 'UNCATEGORIZED').toUpperCase()` of the
report page (the `subject` column is nullable text). -/
def subjectKey (subject : Option String) : String :=
  (match subject with
   | some s => if s != "" then s else "UNCATEGORIZED"
   | none => "UNCATEGORIZED").toUpper

/-- Classification chain of the report page (lines 255–269): `UNATTEMPTED`
when the (already `|| null`-coerced) answer is `null` or `""`, else judged by
`isAnswerCorrect`. -/
def classifyClient (q : QuestionRow) (selected : Value) : RStatus :=
  if isEmptySelected selected then .UNATTEMPTED
  else if isAnswerCorrect q.question_type selected q.correct_answer then .CORRECT
  else .INCORRECT

/-- Classification chain of the edge function (lines 691–697): `UNATTEMPTED`
("do nothing") exactly when the coerced answer is `null`, else judged by its
own `isAnswerCorrect` copy.  Note `selected === null` here has no `=== ""`
disjunct; the `vNull` match transcribes the strict comparison. -/
def serverClassify (q : QuestionRow) (selected : Value) : RStatus :=
  match selected with
  | .vNull => .UNATTEMPTED
  | _ =>
    if isAnswerCorrectServer q.question_type selected q.correct_answer then .CORRECT
    else .INCORRECT

/-- Per-subject counters of the report (`SubjectStats` in the source). -/
structure SubjectStats where
  correct : Nat
  incorrect : Nat
  unattempted : Nat
  score : Int
deriving DecidableEq, Repr

/-- Per-question entry pushed onto `newReportData.questions`. -/
structure QuestionAnalysis where
  question_id : String
  question_number : Int
  question_text : Option String
  subject : Option String
  correct_answer : Value
  solution_text : Option String
  selected_answer : Value
  status : RStatus
deriving Repr

/-- Report aggregate (`ReportData` in the source, without the display-only
`testName`).  `subjectStats` is a JS object keyed by subject; its
insertion-ordered key/value pairs are modelled as an association list. -/
structure ReportData where
  totalScore : Int
  totalCorrect : Nat
  totalIncorrect : Nat
  totalUnattempted : Nat
  subjectStats : List (String × SubjectStats)
  questions : List QuestionAnalysis
deriving Repr

/-- Replaces the value at the first occurrence of key `k` (assignment to an
existing JS object property keeps its position). -/
def updateFirst (m : List (String × SubjectStats)) (k : String)
    (f : SubjectStats → SubjectStats) : List (String × SubjectStats) :=
  match m with
  | [] => []
  | (k', v) :: rest =>
    if k' == k then (k', f v) :: rest else (k', v) :: updateFirst rest k f

/-- Creation of a missing subject bucket, `if (!subjectStats[subject])
subjectStats[subject] = {correct: 0, incorrect: 0, unattempted: 0, score: 0}`
(a fresh JS property is appended in insertion order). -/
def ensureSubject (m : List (String × SubjectStats)) (k : String) :
    List (String × SubjectStats) :=
  if (List.find? (fun p => p.1 == k) m).isSome then m
  else m ++ [(k, ⟨0, 0, 0, 0⟩)]

/-- Counter increment of one classification branch of the report loop. -/
def bumpStats (st : RStatus) (s : SubjectStats) : SubjectStats :=
  match st with
  | .CORRECT => { s with correct := s.correct + 1 }
  | .INCORRECT => { s with incorrect := s.incorrect + 1 }
  | .UNATTEMPTED => { s with unattempted := s.unattempted + 1 }

/-- Body of the report page's `for (const link of questionLinks)` loop: skip
unresolved rows; otherwise coerce the stored answer, ensure the subject
bucket, classify (the source's `if`/`else if`/`else` both names the status
and increments the matching total and subject counters), and append the
question's analysis entry. -/
def processLink (answers : AnswerMap) (acc : ReportData) (link : Link) : ReportData :=
  match resolveClient link.questions with
  | none => acc
  | some q =>
    let selected_answer := lookupAnswer answers q.question_id
    let subject := subjectKey q.subject
    let stats := ensureSubject acc.subjectStats subject
    let status := classifyClient q selected_answer
    { acc with
      totalCorrect := acc.totalCorrect + (if status = .CORRECT then 1 else 0)
      totalIncorrect := acc.totalIncorrect + (if status = .INCORRECT then 1 else 0)
      totalUnattempted := acc.totalUnattempted + (if status = .UNATTEMPTED then 1 else 0)
      subjectStats := updateFirst stats subject (bumpStats status)
      questions := acc.questions ++
        [{ question_id := q.question_id
           question_number := link.question_number
           question_text := q.question_text
           subject := q.subject
           correct_answer := q.correct_answer
           solution_text := q.solution_text
           selected_answer := selected_answer
           status := status }] }

/-- Score pass after the loop: `totalScore = totalCorrect*4 - totalIncorrect*1`
and, for every subject bucket, `score = correct*4 - incorrect*1`. -/
def finalizeScores (acc : ReportData) : ReportData :=
  { acc with
    totalScore := (acc.totalCorrect : Int) * 4 - (acc.totalIncorrect : Int) * 1
    subjectStats := acc.subjectStats.map (fun p =>
      (p.1, { p.2 with score := (p.2.correct : Int) * 4 - (p.2.incorrect : Int) * 1 })) }

/-- Interactive report computation (`generateReport` in the report page,
restricted to its pure calculation part over the fetched rows). -/
def generateReport (answers : AnswerMap) (links : List Link) : ReportData :=
  finalizeScores (links.foldl (processLink answers)
    { totalScore := 0, totalCorrect := 0, totalIncorrect := 0
      totalUnattempted := 0, subjectStats := [], questions := [] })

/-- Accumulator of the edge function's scoring loop. -/
structure ServerScore where
  totalCorrect : Nat
  totalIncorrect : Nat
deriving DecidableEq, Repr

/-- Body of the edge function's `for (const link of questionLinks)` loop:
skip unresolved rows; `selected_answer === null` does nothing, otherwise the
judge's verdict increments `totalCorrect` or `totalIncorrect`. -/
def serverProcess (answers : AnswerMap) (acc : ServerScore) (link : Link) : ServerScore :=
  match resolveServer link.questions with
  | none => acc
  | some q =>
    let selected_answer := lookupAnswer answers q.question_id
    match selected_answer with
    | .vNull => acc
    | _ =>
      if isAnswerCorrectServer q.question_type selected_answer q.correct_answer then
        { acc with totalCorrect := acc.totalCorrect + 1 }
      else
        { acc with totalIncorrect := acc.totalIncorrect + 1 }

/-- Server-side recomputation: the counters of the loop. -/
def serverCounts (answers : AnswerMap) (links : List Link) : ServerScore :=
  links.foldl (serverProcess answers) ⟨0, 0⟩

/-- Server-side recomputation of the attempt's score,
`finalScore = (totalCorrect * 4) - (totalIncorrect * 1)`. -/
def serverFinalScore (answers : AnswerMap) (links : List Link) : Int :=
  ((serverCounts answers links).totalCorrect : Int) * 4 -
    ((serverCounts answers links).totalIncorrect : Int) * 1

/-- Per-question classification of the report page's loop as a partial
function on link rows (`none` for a skipped row). -/
def clientClassifyLink (answers : AnswerMap) (link : Link) : Option RStatus :=
  (resolveClient link.questions).map
    (fun q => classifyClient q (lookupAnswer answers q.question_id))

/-- Per-question classification of the edge function's loop as a partial
function on link rows (`none` for a skipped row). -/
def serverClassifyLink (answers : AnswerMap) (link : Link) : Option RStatus :=
  (resolveServer link.questions).map
    (fun q => serverClassify q (lookupAnswer answers q.question_id))

/-- Per-question status of the test page (`AnswerStatus` in the source). -/
inductive AnswerStatus where
  | not_visited : AnswerStatus
  | unanswered : AnswerStatus
  | answered : AnswerStatus
  | marked_for_review : AnswerStatus
deriving DecidableEq, Repr

/-- In-memory `QuestionState` of the test page. -/
structure PageQuestionState where
  status : AnswerStatus
  selected_answer : Value
  time_taken_sec : Nat
deriving Repr

/-- The `testState` object, keyed by `question_id`, as an insertion-ordered
association list. -/
abbrev TestStateMap := List (String × PageQuestionState)

/-- Helper `getQuestionState` of the test page: `testState[qId] || {status:
'not_visited', selected_answer: null, time_taken_sec: 0}` (every stored state
object is truthy, so this is lookup-with-default). -/
def getQuestionState (ts : TestStateMap) (qId : String) : PageQuestionState :=
  match List.find? (fun p => p.1 == qId) ts with
  | some (_, st) => st
  | none => { status := .not_visited, selected_answer := .vNull, time_taken_sec := 0 }

/-- Spread update `{...prevState, [qId]: st}`: overwrites an existing
property in place, otherwise appends the new property. -/
def setQState (ts : TestStateMap) (qId : String) (st : PageQuestionState) : TestStateMap :=
  match ts with
  | [] => [(qId, st)]
  | (k, v) :: rest =>
    if k == qId then (k, st) :: rest else (k, v) :: setQState rest qId st

/-- Controller state of the test page relevant to navigation and answer
edits: the ordered `question_id`s of the fetched questions, the active index,
and the per-question state map. -/
structure TestPageState where
  questions : List String
  currentQuestionIndex : Nat
  testState : TestStateMap
deriving Repr

/-- Navigation function `navigateToQuestion(newIndex)` of the test page
(lines 183–205): no-op when the target is out of bounds or equals the current
index; otherwise the outgoing question is saved fire-and-forget (no state
change), a `not_visited` target is promoted to `unanswered`, and the active
index moves. -/
def navigateToQuestion (s : TestPageState) (newIndex : Int) : TestPageState :=
  if newIndex < 0 || newIndex ≥ (s.questions.length : Int) ||
      newIndex = (s.currentQuestionIndex : Int) then s
  else
    let newQId := s.questions.getD newIndex.toNat ""
    let newState := getQuestionState s.testState newQId
    let ts :=
      if newState.status = .not_visited then
        setQState s.testState newQId { newState with status := .unanswered }
      else s.testState
    { s with testState := ts, currentQuestionIndex := newIndex.toNat }

/-- Answer-edit handler `handleAnswerChange(selectedOption)` of the test page
(lines 243–257): the new status is `answered` when `selectedOption !== null
&& selectedOption !== ''` (strict comparisons), else `unanswered`; the
current question's entry gets the new `selected_answer` and status, whatever
its previous status was. -/
def handleAnswerChange (s : TestPageState) (selectedOption : Value) : TestPageState :=
  let qId := s.questions.getD s.currentQuestionIndex ""
  let newStatus : AnswerStatus :=
    match selectedOption with
    | .vNull => .unanswered
    | .vStr "" => .unanswered
    | _ => .answered
  let oldQState := getQuestionState s.testState qId
  let newEntry := { oldQState with selected_answer := selectedOption, status := newStatus }
  { s with testState := setQState s.testState qId newEntry }

/-- Session-level state read by the timer effect and the submission guard:
the reactive variables `timeLeft`, `loading`, `isSubmitting`, plus a ghost
counter of submission attempts that passed the guard (used to state
"exactly one submission"). -/
structure SessionState where
  timeLeft : Int
  loading : Bool
  isSubmitting : Bool
  submissionsStarted : Nat
deriving DecidableEq, Repr

/-- Synchronous prefix of `handleSubmitTest` (lines 264–272): the in-flight
guard `if (isSubmitting) return`, the `window.confirm` dialog (its outcome is
the `confirmChoice` parameter), and `setIsSubmitting(true)`.  Passing the
guard and the dialog counts one started submission. -/
def submitEntry (confirmChoice : Bool) (s : SessionState) : SessionState :=
  if s.isSubmitting then s
  else if !confirmChoice then s
  else { s with isSubmitting := true, submissionsStarted := s.submissionsStarted + 1 }

/-- Action the timer effect (lines 144–154) takes for the current reactive
state: do nothing while loading or submitting; at `timeLeft <= 0` call
`handleSubmitTest()` and return without installing an interval; otherwise
install the one-second interval. -/
inductive TimerAction where
  | idle : TimerAction
  | submitNow : TimerAction
  | tickLater : TimerAction
deriving DecidableEq, Repr

/-- Decision of the timer effect as a function of its dependencies
`[timeLeft, loading, isSubmitting]`. -/
def timerEffect (s : SessionState) : TimerAction :=
  if s.loading || s.isSubmitting then .idle
  else if s.timeLeft ≤ 0 then .submitNow
  else .tickLater

/-- Events of the cooperative event loop: an interval tick (effective only
when the effect installed one), the expiry-triggered submit call, and a user
click on the submit button.  Each submit-path event carries the user's
`window.confirm` choice. -/
inductive SessionEvent where
  | tick : SessionEvent
  | expiry : Bool → SessionEvent
  | click : Bool → SessionEvent

/-- One cooperative event-loop step.  A `tick` decrements `timeLeft` only
when the effect would have an interval installed for the state it observes;
an `expiry` runs the submit path only when the effect chose `submitNow`; a
`click` always invokes `handleSubmitTest`, whose own guard decides. -/
def sessionStep (e : SessionEvent) (s : SessionState) : SessionState :=
  match e with
  | .tick => if timerEffect s = .tickLater then { s with timeLeft := s.timeLeft - 1 } else s
  | .expiry c => if timerEffect s = .submitNow then submitEntry c s else s
  | .click c => submitEntry c s

/-- Runs a sequence of event-loop steps. -/
def sessionRun (es : List SessionEvent) (s : SessionState) : SessionState :=
  es.foldl (fun t e => sessionStep e t) s

/-- Failure environment of one submission run: the user's confirm choice and
whether each of the two persistence calls fails. -/
structure SubmitEnv where
  confirmChoice : Bool
  saveFails : Bool
  updateFails : Bool
deriving DecidableEq, Repr

/-- Persistent/visible state touched by `handleSubmitTest`. -/
structure SubmitState where
  isSubmitting : Bool
  attemptStatus : String
  answerSaved : Bool
  errorSurfaced : Bool
  redirected : Bool
deriving DecidableEq, Repr

/-- Full submission path `handleSubmitTest` (lines 264–296) with failure
injection.  After the guard and the confirm dialog: `setIsSubmitting(true)`;
`saveAnswerToDB` on the active question — on error it only logs
(`console.error`) and `handleSubmitTest` continues regardless; then the
attempt update to `status: 'COMPLETED'` — on error an alert is shown,
`setIsSubmitting(false)` rolls the flag back and the function returns with
the attempt row untouched; on success the page redirects to the report. -/
def handleSubmitTestRun (env : SubmitEnv) (s : SubmitState) : SubmitState :=
  if s.isSubmitting then s
  else if !env.confirmChoice then s
  else
    let s1 := { s with isSubmitting := true }
    let s2 := { s1 with answerSaved := s1.answerSaved || !env.saveFails }
    if env.updateFails then
      { s2 with errorSurfaced := true, isSubmitting := false }
    else
      { s2 with attemptStatus := "COMPLETED", redirected := true }

/-! Helper lemmas shared by the claim theorems. -/

/-- Extensional equality of the two Answer Judge copies: their transcribed
bodies are identical, so the functions agree definitionally. -/
theorem judge_copies_eq (qType : String) (selected correct : Value) :
    isAnswerCorrect qType selected correct = isAnswerCorrectServer qType selected correct := rfl

/-- Truthy values pass the empty-selection guard. -/
theorem truthy_not_empty (v : Value) (h : truthy v = true) : isEmptySelected v = false := by
  cases v <;> simp_all [truthy, isEmptySelected]

/-- The coerced answer lookup yields `null` or a truthy value, never a falsy
non-null value such as `""`. -/
theorem lookup_null_or_truthy (answers : AnswerMap) (qid : String) :
    lookupAnswer answers qid = .vNull ∨ truthy (lookupAnswer answers qid) = true := by
  unfold lookupAnswer
  cases h : List.find? (fun p => p.1 == qid) answers with
  | none => exact Or.inl rfl
  | some p =>
    rcases p with ⟨k, v⟩
    by_cases hv : truthy v = true
    · right; simp [hv]
    · left; simp at hv; simp [hv]

/-- On values produced by the coerced lookup, the two loops' classification
chains agree (the report page's extra `=== ""` disjunct is unreachable after
the `|| null` coercion). -/
theorem classify_agree (q : QuestionRow) (answers : AnswerMap) (qid : String) :
    classifyClient q (lookupAnswer answers qid) = serverClassify q (lookupAnswer answers qid) := by
  rcases lookup_null_or_truthy answers qid with h | h
  · rw [h]; rfl
  · have he := truthy_not_empty _ h
    unfold classifyClient serverClassify
    cases hv : lookupAnswer answers qid with
    | vNull => rw [hv] at h; simp [truthy] at h
    | vUndefined => rw [hv] at he; simp [isEmptySelected] at he
    | vStr s => rw [hv] at he; simp [he, judge_copies_eq]
    | vNum n => rw [hv] at he; simp [he, judge_copies_eq]
    | vBool b => rw [hv] at he; simp [he, judge_copies_eq]
    | vArr xs => rw [hv] at he; simp [he, judge_copies_eq]

/-- On link rows whose `Questions` field is not a bare object, the two loops
resolve to the same row. -/
theorem resolve_agree (qf : QuestionsField) (h : qf.isObj = false) :
    resolveClient qf = resolveServer qf := by
  cases qf with
  | missing => rfl
  | obj q => simp [QuestionsField.isObj] at h
  | arr xs =>
    cases xs with
    | nil => rfl
    | cons hd tl => cases hd <;> rfl

/-- On link rows whose `Questions` field is not a bare object, the two loops
classify identically. -/
theorem classifyLink_agree (answers : AnswerMap) (l : Link) (h : l.questions.isObj = false) :
    clientClassifyLink answers l = serverClassifyLink answers l := by
  unfold clientClassifyLink serverClassifyLink
  rw [resolve_agree l.questions h]
  cases resolveServer l.questions with
  | none => rfl
  | some q => simp [classify_agree]

/-- Counts the links a classification function sends to a given status. -/
def countStatus (cl : Link → Option RStatus) (st : RStatus) : List Link → Nat
  | [] => 0
  | l :: ls => (if cl l = some st then 1 else 0) + countStatus cl st ls

/-- Congruence for `countStatus` under pointwise-equal classifications. -/
theorem countStatus_congr {cl₁ cl₂ : Link → Option RStatus} (st : RStatus)
    (links : List Link) (h : ∀ l ∈ links, cl₁ l = cl₂ l) :
    countStatus cl₁ st links = countStatus cl₂ st links := by
  induction links with
  | nil => rfl
  | cons l ls ih =>
    simp only [countStatus]
    rw [h l (List.mem_cons_self l ls), ih (fun x hx => h x (List.mem_cons_of_mem l hx))]

/-- Field equations for one step of the report loop: the three totals move
by exactly the indicator of the link's classification. -/
theorem processLink_totals (answers : AnswerMap) (acc : ReportData) (l : Link) :
    (processLink answers acc l).totalCorrect
      = acc.totalCorrect + (if clientClassifyLink answers l = some .CORRECT then 1 else 0)
  ∧ (processLink answers acc l).totalIncorrect
      = acc.totalIncorrect + (if clientClassifyLink answers l = some .INCORRECT then 1 else 0)
  ∧ (processLink answers acc l).totalUnattempted
      = acc.totalUnattempted + (if clientClassifyLink answers l = some .UNATTEMPTED then 1 else 0) := by
  unfold processLink clientClassifyLink
  cases h : resolveClient l.questions with
  | none => simp
  | some q => simp

/-- Field equations for one step of the edge function's loop. -/
theorem serverProcess_totals (answers : AnswerMap) (acc : ServerScore) (l : Link) :
    (serverProcess answers acc l).totalCorrect
      = acc.totalCorrect + (if serverClassifyLink answers l = some .CORRECT then 1 else 0)
  ∧ (serverProcess answers acc l).totalIncorrect
      = acc.totalIncorrect + (if serverClassifyLink answers l = some .INCORRECT then 1 else 0) := by
  unfold serverProcess serverClassifyLink serverClassify
  cases h : resolveServer l.questions with
  | none => simp
  | some q =>
    cases hsel : lookupAnswer answers q.question_id <;>
      simp [hsel] <;> split <;> simp_all

/-- The report loop's totals over a whole link list are the classification
counts. -/
theorem client_fold_counts (answers : AnswerMap) (links : List Link) (acc : ReportData) :
    ((links.foldl (processLink answers) acc).totalCorrect
      = acc.totalCorrect + countStatus (clientClassifyLink answers) .CORRECT links)
  ∧ ((links.foldl (processLink answers) acc).totalIncorrect
      = acc.totalIncorrect + countStatus (clientClassifyLink answers) .INCORRECT links)
  ∧ ((links.foldl (processLink answers) acc).totalUnattempted
      = acc.totalUnattempted + countStatus (clientClassifyLink answers) .UNATTEMPTED links) := by
  induction links generalizing acc with
  | nil => simp [countStatus]
  | cons l ls ih =>
    simp only [List.foldl_cons, countStatus]
    obtain ⟨ihc, ihi, ihu⟩ := ih (processLink answers acc l)
    obtain ⟨pc, pi, pu⟩ := processLink_totals answers acc l
    refine ⟨?_, ?_, ?_⟩
    · rw [ihc, pc]; omega
    · rw [ihi, pi]; omega
    · rw [ihu, pu]; omega

/-- The edge function's totals over a whole link list are the classification
counts. -/
theorem server_fold_counts (answers : AnswerMap) (links : List Link) (acc : ServerScore) :
    ((links.foldl (serverProcess answers) acc).totalCorrect
      = acc.totalCorrect + countStatus (serverClassifyLink answers) .CORRECT links)
  ∧ ((links.foldl (serverProcess answers) acc).totalIncorrect
      = acc.totalIncorrect + countStatus (serverClassifyLink answers) .INCORRECT links) := by
  induction links generalizing acc with
  | nil => simp [countStatus]
  | cons l ls ih =>
    simp only [List.foldl_cons, countStatus]
    obtain ⟨ihc, ihi⟩ := ih (serverProcess answers acc l)
    obtain ⟨pc, pi⟩ := serverProcess_totals answers acc l
    refine ⟨?_, ?_⟩
    · rw [ihc, pc]; omega
    · rw [ihi, pi]; omega

/-- Total score of the interactive report, expressed through classification
counts. -/
theorem generateReport_totalScore (answers : AnswerMap) (links : List Link) :
    (generateReport answers links).totalScore
      = (countStatus (clientClassifyLink answers) .CORRECT links : Int) * 4
        - (countStatus (clientClassifyLink answers) .INCORRECT links : Int) * 1 := by
  unfold generateReport
  obtain ⟨hc, hi, -⟩ := client_fold_counts answers links
    { totalScore := 0, totalCorrect := 0, totalIncorrect := 0
      totalUnattempted := 0, subjectStats := [], questions := [] }
  simp [finalizeScores, hc, hi]

/-- Final score of the server recomputation, expressed through
classification counts. -/
theorem serverFinalScore_counts (answers : AnswerMap) (links : List Link) :
    serverFinalScore answers links
      = (countStatus (serverClassifyLink answers) .CORRECT links : Int) * 4
        - (countStatus (serverClassifyLink answers) .INCORRECT links : Int) * 1 := by
  unfold serverFinalScore serverCounts
  obtain ⟨hc, hi⟩ := server_fold_counts answers links ⟨0, 0⟩
  simp [hc, hi]

/-- C1 (counterexample): the claim that the two scoring paths classify
identically for the same stored answers and the same joined rows is false.
On a link row whose `Questions` field is a bare (non-array) object — a shape
the test page's own fetch code treats as the normal join result — the report
page's loop skips the question while the edge function's loop resolves it:
here the report scores 0 with no classified question while the server
classifies it CORRECT and scores 4. -/
theorem scoring_paths_diverge_on_object_row :
    let q : QuestionRow :=
      { question_id := "q1", question_type := "SINGLE_CHOICE", subject := some "PHYSICS"
        correct_answer := Value.vArr [Value.vStr "A"]
        question_text := none, solution_text := none }
    let link : Link := { question_number := 1, questions := QuestionsField.obj q }
    let answers : AnswerMap := [("q1", Value.vStr "A")]
    clientClassifyLink answers link = none
  ∧ serverClassifyLink answers link = some RStatus.CORRECT
  ∧ (generateReport answers [link]).totalScore = 0
  ∧ serverFinalScore answers [link] = 4 := by
  exact ⟨rfl, rfl, rfl, rfl⟩

/-- C1 (amended): given the same stored AnswerResponses and the same joined
question rows, PROVIDED every row presents its joined `Questions` data in the
array shape (never as a bare object — the one shape on which the two loops'
row resolution differs), the interactive report computation and the
server-side recomputation classify every question identically and produce
the same total score; and the two copies of `isAnswerCorrect` are
extensionally equal functions. -/
theorem scoring_paths_agree_on_array_rows (answers : AnswerMap) (links : List Link)
    (h : ∀ l ∈ links, l.questions.isObj = false) :
    (∀ l ∈ links, clientClassifyLink answers l = serverClassifyLink answers l)
  ∧ (generateReport answers links).totalScore = serverFinalScore answers links
  ∧ (∀ qType selected correct,
      isAnswerCorrect qType selected correct = isAnswerCorrectServer qType selected correct) := by
  have hagree : ∀ l ∈ links, clientClassifyLink answers l = serverClassifyLink answers l :=
    fun l hl => classifyLink_agree answers l (h l hl)
  refine ⟨hagree, ?_, fun t s c => judge_copies_eq t s c⟩
  rw [generateReport_totalScore, serverFinalScore_counts,
    countStatus_congr RStatus.CORRECT links hagree,
    countStatus_congr RStatus.INCORRECT links hagree]

/-- C1 (witness): the amended agreement theorem applied to the spec's
end-to-end scenario (three array-shaped rows, one correct, one incorrect,
one unattempted answer), where both paths score 3. -/
theorem scoring_paths_agree_witness :
    (let q1 : QuestionRow :=
      { question_id := "q1", question_type := "SINGLE_CHOICE", subject := some "Physics"
        correct_answer := Value.vArr [Value.vStr "A"]
        question_text := none, solution_text := none }
    let q2 : QuestionRow :=
      { question_id := "q2", question_type := "SINGLE_CHOICE", subject := some "Physics"
        correct_answer := Value.vArr [Value.vStr "B"]
        question_text := none, solution_text := none }
    let q3 : QuestionRow :=
      { question_id := "q3", question_type := "NUMERICAL", subject := some "Maths"
        correct_answer := Value.vArr [Value.vNum 10]
        question_text := none, solution_text := none }
    let links : List Link :=
      [ { question_number := 1, questions := QuestionsField.arr [some q1] }
      , { question_number := 2, questions := QuestionsField.arr [some q2] }
      , { question_number := 3, questions := QuestionsField.arr [some q3] } ]
    let answers : AnswerMap := [("q1", Value.vStr "A"), ("q2", Value.vStr "C")]
    (generateReport answers links).totalScore = serverFinalScore answers links
      ∧ (generateReport answers links).totalScore = 3) := by
  refine ⟨(scoring_paths_agree_on_array_rows _ _ ?_).2.1, rfl⟩
  intro l hl
  simp only [List.mem_cons, List.not_mem_nil, or_false] at hl
  rcases hl with rfl | rfl | rfl <;> rfl

/-- Sum of the per-subject `correct` counters. -/
def sumCorrect (m : List (String × SubjectStats)) : Nat :=
  (m.map (fun p => p.2.correct)).sum

/-- Sum of the per-subject `incorrect` counters. -/
def sumIncorrect (m : List (String × SubjectStats)) : Nat :=
  (m.map (fun p => p.2.incorrect)).sum

/-- Sum of the per-subject scores. -/
def sumScores (m : List (String × SubjectStats)) : Int :=
  (m.map (fun p => p.2.score)).sum

/-- Creating a missing (zeroed) subject bucket changes no counter sum. -/
theorem sumCorrect_ensure (m : List (String × SubjectStats)) (k : String) :
    sumCorrect (ensureSubject m k) = sumCorrect m ∧
    sumIncorrect (ensureSubject m k) = sumIncorrect m := by
  unfold ensureSubject
  split
  · exact ⟨rfl, rfl⟩
  · simp [sumCorrect, sumIncorrect]

/-- Appending an entry keyed `k` makes a lookup for `k` succeed. -/
theorem find_append_key (m : List (String × SubjectStats)) (k : String) (z : SubjectStats) :
    (List.find? (fun p => p.1 == k) (m ++ [(k, z)])).isSome = true := by
  induction m with
  | nil => simp
  | cons p rest ih =>
    by_cases hp : p.1 == k
    · simp [List.find?, hp]
    · simp only [List.cons_append, List.find?]
      rw [Bool.of_not_eq_true hp]
      exact ih

/-- After `ensureSubject`, the bucket for the key exists. -/
theorem find_ensure (m : List (String × SubjectStats)) (k : String) :
    (List.find? (fun p => p.1 == k) (ensureSubject m k)).isSome = true := by
  unfold ensureSubject
  split
  · assumption
  · exact find_append_key m k _

/-- Incrementing one existing bucket's counter moves the corresponding sum
by exactly the classification's indicator. -/
theorem sum_updateFirst_bump (m : List (String × SubjectStats)) (k : String) (st : RStatus)
    (h : (List.find? (fun p => p.1 == k) m).isSome = true) :
    sumCorrect (updateFirst m k (bumpStats st))
      = sumCorrect m + (if st = .CORRECT then 1 else 0) ∧
    sumIncorrect (updateFirst m k (bumpStats st))
      = sumIncorrect m + (if st = .INCORRECT then 1 else 0) := by
  induction m with
  | nil => simp [List.find?] at h
  | cons p rest ih =>
    rcases p with ⟨k', v⟩
    by_cases hk : k' == k
    · simp only [updateFirst, hk, if_true]
      constructor
      · show (bumpStats st v).correct + sumCorrect rest = v.correct + sumCorrect rest + _
        cases st <;> simp [bumpStats] <;> omega
      · show (bumpStats st v).incorrect + sumIncorrect rest = v.incorrect + sumIncorrect rest + _
        cases st <;> simp [bumpStats] <;> omega
    · simp only [List.find?] at h
      rw [Bool.of_not_eq_true hk] at h
      obtain ⟨ihc, ihi⟩ := ih h
      simp only [updateFirst, hk, if_false]
      constructor
      · show v.correct + sumCorrect (updateFirst rest k (bumpStats st)) = _
        rw [ihc]; show _ = v.correct + sumCorrect rest + _; omega
      · show v.incorrect + sumIncorrect (updateFirst rest k (bumpStats st)) = _
        rw [ihi]; show _ = v.incorrect + sumIncorrect rest + _; omega

/-- The report loop keeps the per-subject counter sums in lock step with the
total counters. -/
theorem client_fold_sums (answers : AnswerMap) (links : List Link) (acc : ReportData)
    (hc : sumCorrect acc.subjectStats = acc.totalCorrect)
    (hi : sumIncorrect acc.subjectStats = acc.totalIncorrect) :
    sumCorrect ((links.foldl (processLink answers) acc).subjectStats)
        = (links.foldl (processLink answers) acc).totalCorrect
  ∧ sumIncorrect ((links.foldl (processLink answers) acc).subjectStats)
        = (links.foldl (processLink answers) acc).totalIncorrect := by
  induction links generalizing acc with
  | nil => exact ⟨hc, hi⟩
  | cons l ls ih =>
    simp only [List.foldl_cons]
    apply ih
    · unfold processLink
      cases h : resolveClient l.questions with
      | none => exact hc
      | some q =>
        simp only
        obtain ⟨he, -⟩ := sumCorrect_ensure acc.subjectStats (subjectKey q.subject)
        obtain ⟨hb, -⟩ := sum_updateFirst_bump (ensureSubject acc.subjectStats (subjectKey q.subject))
          (subjectKey q.subject)
          (classifyClient q (lookupAnswer answers q.question_id))
          (find_ensure acc.subjectStats (subjectKey q.subject))
        rw [hb, he, hc]
    · unfold processLink
      cases h : resolveClient l.questions with
      | none => exact hi
      | some q =>
        simp only
        obtain ⟨-, he⟩ := sumCorrect_ensure acc.subjectStats (subjectKey q.subject)
        obtain ⟨-, hb⟩ := sum_updateFirst_bump (ensureSubject acc.subjectStats (subjectKey q.subject))
          (subjectKey q.subject)
          (classifyClient q (lookupAnswer answers q.question_id))
          (find_ensure acc.subjectStats (subjectKey q.subject))
        rw [hb, he, hi]

/-- Summing the scores the finalize pass writes gives `4·Σcorrect −
Σincorrect`. -/
theorem sumScores_finalize (m : List (String × SubjectStats)) :
    sumScores (m.map (fun p =>
        (p.1, { p.2 with score := (p.2.correct : Int) * 4 - (p.2.incorrect : Int) * 1 })))
      = (sumCorrect m : Int) * 4 - (sumIncorrect m : Int) * 1 := by
  induction m with
  | nil => simp [sumScores, sumCorrect, sumIncorrect]
  | cons p rest ih =>
    simp only [List.map_cons, sumScores, sumCorrect, sumIncorrect, List.map, List.sum_cons] at *
    push_cast
    push_cast at ih
    omega

/-- C2: for every report computed from any resolved questions and stored
answers, `totalScore = totalCorrect·4 − totalIncorrect·1`, each subject
bucket's `score = correct·4 − incorrect·1` (so unattempted entries contribute
0), and the subject scores sum to the total score, for any attempt with at
least one question. -/
theorem report_scoring_rule (answers : AnswerMap) (links : List Link)
    (h : links ≠ []) :
    (generateReport answers links).totalScore
      = ((generateReport answers links).totalCorrect : Int) * 4
        - ((generateReport answers links).totalIncorrect : Int) * 1
  ∧ (∀ p ∈ (generateReport answers links).subjectStats,
      p.2.score = (p.2.correct : Int) * 4 - (p.2.incorrect : Int) * 1)
  ∧ sumScores (generateReport answers links).subjectStats
      = (generateReport answers links).totalScore := by
  refine ⟨rfl, ?_, ?_⟩
  · intro p hp
    simp only [generateReport, finalizeScores, List.mem_map] at hp
    obtain ⟨q, hq, rfl⟩ := hp
    rfl
  · show sumScores ((finalizeScores _).subjectStats) = (finalizeScores _).totalScore
    simp only [finalizeScores]
    rw [sumScores_finalize]
    obtain ⟨hc, hi⟩ := client_fold_sums answers links
      { totalScore := 0, totalCorrect := 0, totalIncorrect := 0
        totalUnattempted := 0, subjectStats := [], questions := [] } rfl rfl
    rw [hc, hi]

/-- C2 (witness): the scoring identities applied to the concrete three
question scenario of the specification. -/
theorem report_scoring_rule_witness :
    (let q1 : QuestionRow :=
      { question_id := "q1", question_type := "SINGLE_CHOICE", subject := some "Physics"
        correct_answer := Value.vArr [Value.vStr "A"]
        question_text := none, solution_text := none }
    let q3 : QuestionRow :=
      { question_id := "q3", question_type := "NUMERICAL", subject := some "Maths"
        correct_answer := Value.vArr [Value.vNum 10]
        question_text := none, solution_text := none }
    let links : List Link :=
      [ { question_number := 1, questions := QuestionsField.arr [some q1] }
      , { question_number := 3, questions := QuestionsField.arr [some q3] } ]
    let answers : AnswerMap := [("q1", Value.vStr "A")]
    (generateReport answers links).totalScore
      = ((generateReport answers links).totalCorrect : Int) * 4
        - ((generateReport answers links).totalIncorrect : Int) * 1
  ∧ (∀ p ∈ (generateReport answers links).subjectStats,
      p.2.score = (p.2.correct : Int) * 4 - (p.2.incorrect : Int) * 1)
  ∧ sumScores (generateReport answers links).subjectStats
      = (generateReport answers links).totalScore) :=
  report_scoring_rule _ _ (by simp)

/-- While a submission is in flight, every event of the cooperative loop
leaves the session state untouched: the interval is not installed, the
expiry branch is not taken, and the click path is stopped by the guard. -/
theorem sessionStep_submitting (e : SessionEvent) (s : SessionState)
    (h : s.isSubmitting = true) : sessionStep e s = s := by
  cases e with
  | tick => simp [sessionStep, timerEffect, h]
  | expiry c => simp [sessionStep, timerEffect, h]
  | click c => simp [sessionStep, submitEntry, h]

/-- Iterated form of `sessionStep_submitting`. -/
theorem sessionRun_submitting (es : List SessionEvent) (s : SessionState)
    (h : s.isSubmitting = true) : sessionRun es s = s := by
  induction es with
  | nil => rfl
  | cons e es ih =>
    show sessionRun es (sessionStep e s) = s
    rw [sessionStep_submitting e s h]
    exact ih

/-- C5: when `timeLeft` reaches 0 while the attempt is active (not loading,
not submitting), the timer effect synchronously takes the submit branch; the
submit path increments the started-submission count to exactly one more and
raises `isSubmitting`; a user click racing the expiry produces the very same
state; and from that state every further event — ticks, expiry re-fires,
more clicks — is a no-op, so the timer stops decrementing and the second
invocation is swallowed by the in-flight guard. -/
theorem timer_expiry_single_submission (s : SessionState)
    (hl : s.loading = false) (ht : s.timeLeft = 0) (hs : s.isSubmitting = false) :
    timerEffect s = .submitNow
  ∧ sessionStep (.expiry true) s
      = { s with isSubmitting := true, submissionsStarted := s.submissionsStarted + 1 }
  ∧ sessionStep (.click true) s
      = { s with isSubmitting := true, submissionsStarted := s.submissionsStarted + 1 }
  ∧ ∀ es, sessionRun es
        { s with isSubmitting := true, submissionsStarted := s.submissionsStarted + 1 }
      = { s with isSubmitting := true, submissionsStarted := s.submissionsStarted + 1 } := by
  have h1 : timerEffect s = .submitNow := by simp [timerEffect, hl, hs, ht]
  refine ⟨h1, ?_, ?_, fun es => sessionRun_submitting es _ rfl⟩
  · simp [sessionStep, h1, submitEntry, hs]
  · simp [sessionStep, submitEntry, hs]

/-- C5 (witness): the expiry theorem applied to the concrete expired state,
with a trace that tries a racing click, a tick and a second expiry. -/
theorem timer_expiry_single_submission_witness :
    timerEffect ⟨0, false, false, 0⟩ = TimerAction.submitNow
  ∧ sessionStep (SessionEvent.expiry true) ⟨0, false, false, 0⟩ = ⟨0, false, true, 1⟩
  ∧ sessionStep (SessionEvent.click true) ⟨0, false, false, 0⟩ = ⟨0, false, true, 1⟩
  ∧ sessionRun [SessionEvent.click true, SessionEvent.tick, SessionEvent.expiry true]
      ⟨0, false, true, 1⟩ = ⟨0, false, true, 1⟩ := by
  obtain ⟨h1, h2, h3, h4⟩ := timer_expiry_single_submission ⟨0, false, false, 0⟩ rfl rfl rfl
  exact ⟨h1, h2, h3, h4 _⟩

/-- C6 (counterexample): the claim that ANY persistence failure during
submit aborts with a retryable error and leaves the attempt `STARTED` is
false for the final answer save: when `saveAnswerToDB` fails but the attempt
update succeeds, the submission completes — the attempt is marked
`COMPLETED`, no error is surfaced, and the answer is simply lost. -/
theorem submit_save_failure_not_aborting :
    let env : SubmitEnv := { confirmChoice := true, saveFails := true, updateFails := false }
    let s : SubmitState :=
      { isSubmitting := false, attemptStatus := "STARTED", answerSaved := false
        errorSurfaced := false, redirected := false }
    (handleSubmitTestRun env s).attemptStatus = "COMPLETED"
  ∧ (handleSubmitTestRun env s).errorSurfaced = false
  ∧ (handleSubmitTestRun env s).answerSaved = false
  ∧ (handleSubmitTestRun env s).redirected = true := by
  exact ⟨rfl, rfl, rfl, rfl⟩

/-- C6 (amended): if the attempt status/end_time update fails during
submit(), the submission aborts with a retryable error surfaced to the
caller, the submitting flag is rolled back so the user may retry, and the
Attempt's status remains unchanged (`STARTED`); a failure of the final
answer save alone, however, is only logged and the submission proceeds. -/
theorem submit_update_failure_aborts (env : SubmitEnv) (s : SubmitState)
    (hns : s.isSubmitting = false) (hc : env.confirmChoice = true)
    (hu : env.updateFails = true) :
    (handleSubmitTestRun env s).errorSurfaced = true
  ∧ (handleSubmitTestRun env s).isSubmitting = false
  ∧ (handleSubmitTestRun env s).attemptStatus = s.attemptStatus
  ∧ (handleSubmitTestRun env s).redirected = s.redirected := by
  simp [handleSubmitTestRun, hns, hc, hu]

/-- C6 (witness): the abort-on-update-failure theorem at a concrete
`STARTED` attempt. -/
theorem submit_update_failure_aborts_witness :
    (handleSubmitTestRun ⟨true, false, true⟩ ⟨false, "STARTED", false, false, false⟩).errorSurfaced = true
  ∧ (handleSubmitTestRun ⟨true, false, true⟩ ⟨false, "STARTED", false, false, false⟩).isSubmitting = false
  ∧ (handleSubmitTestRun ⟨true, false, true⟩ ⟨false, "STARTED", false, false, false⟩).attemptStatus
      = (⟨false, "STARTED", false, false, false⟩ : SubmitState).attemptStatus
  ∧ (handleSubmitTestRun ⟨true, false, true⟩ ⟨false, "STARTED", false, false, false⟩).redirected
      = (⟨false, "STARTED", false, false, false⟩ : SubmitState).redirected :=
  submit_update_failure_aborts ⟨true, false, true⟩ ⟨false, "STARTED", false, false, false⟩ rfl rfl rfl

/-- Updating a question's entry makes its subsequent lookup return exactly
the written state. -/
theorem getQuestionState_setQState_same (ts : TestStateMap) (qId : String)
    (st : PageQuestionState) : getQuestionState (setQState ts qId st) qId = st := by
  induction ts with
  | nil => simp [setQState, getQuestionState, List.find?]
  | cons p rest ih =>
    rcases p with ⟨k, v⟩
    by_cases hk : (k == qId) = true
    · simp [setQState, hk, getQuestionState, List.find?]
    · simp only [setQState, hk, if_false, Bool.false_eq_true]
      simp only [getQuestionState, List.find?] at ih ⊢
      rw [Bool.of_not_eq_true hk]
      exact ih

/-- Updating one question's entry leaves every other question's lookup
unchanged. -/
theorem getQuestionState_setQState_other (ts : TestStateMap) (qId other : String)
    (st : PageQuestionState) (h : other ≠ qId) :
    getQuestionState (setQState ts qId st) other = getQuestionState ts other := by
  induction ts with
  | nil =>
    simp only [setQState, getQuestionState, List.find?]
    rw [show (qId == other) = false by simpa using fun e => h e.symm]
  | cons p rest ih =>
    rcases p with ⟨k, v⟩
    by_cases hk : (k == qId) = true
    · have hko : (k == other) = false := by
        have : k = qId := by simpa using hk
        subst this
        simpa using fun e => h e.symm
      simp [setQState, hk, getQuestionState, List.find?, hko]
    · simp only [setQState, hk, if_false, Bool.false_eq_true]
      simp only [getQuestionState, List.find?] at ih ⊢
      cases hko : (k == other) with
      | true => rfl
      | false => exact ih

/-- C7: for every navigation to an in-bounds target different from the
current index, a `not_visited` target is promoted to `unanswered`, any other
target status leaves the whole state map untouched (so a previously assigned
status is never reset), and the active index moves to the target. -/
theorem navigate_visit_transition (s : TestPageState) (newIndex : Int)
    (h0 : 0 ≤ newIndex) (h1 : newIndex < (s.questions.length : Int))
    (h2 : newIndex ≠ (s.currentQuestionIndex : Int)) :
    ((getQuestionState s.testState (s.questions.getD newIndex.toNat "")).status = .not_visited →
      (getQuestionState (navigateToQuestion s newIndex).testState
          (s.questions.getD newIndex.toNat "")).status = .unanswered)
  ∧ ((getQuestionState s.testState (s.questions.getD newIndex.toNat "")).status ≠ .not_visited →
      (navigateToQuestion s newIndex).testState = s.testState)
  ∧ (navigateToQuestion s newIndex).currentQuestionIndex = newIndex.toNat := by
  unfold navigateToQuestion
  split
  · rename_i hcond
    simp only [Bool.or_eq_true, decide_eq_true_eq] at hcond
    omega
  · dsimp only
    refine ⟨?_, ?_, rfl⟩
    · intro hnv
      rw [if_pos hnv, getQuestionState_setQState_same]
    · intro hnv
      simp only [if_neg hnv]

/-- C7 (witness): a first visit to question index 1 promotes it from
`not_visited` to `unanswered` and moves the index. -/
theorem navigate_visit_transition_witness :
    (let s : TestPageState :=
      { questions := ["a", "b"], currentQuestionIndex := 0
        testState := [("a", ⟨.unanswered, .vNull, 0⟩), ("b", ⟨.not_visited, .vNull, 0⟩)] }
    ((getQuestionState s.testState (s.questions.getD (Int.toNat 1) "")).status = .not_visited →
      (getQuestionState (navigateToQuestion s 1).testState
          (s.questions.getD (Int.toNat 1) "")).status = .unanswered)
  ∧ ((getQuestionState s.testState (s.questions.getD (Int.toNat 1) "")).status ≠ .not_visited →
      (navigateToQuestion s 1).testState = s.testState)
  ∧ (navigateToQuestion s 1).currentQuestionIndex = Int.toNat 1) :=
  navigate_visit_transition _ 1 (by decide) (by decide) (by decide)

/-- C8: `handleAnswerChange(value)` writes `selected_answer = value` on the
current question, sets its status to `answered` when the value is neither
`null` nor the empty string and to `unanswered` otherwise, and in every case
the resulting status is not `marked_for_review` — an answer edit always
overwrites a prior mark. -/
theorem answer_change_overwrites (s : TestPageState) (v : Value)
    (h : s.currentQuestionIndex < s.questions.length) :
    (getQuestionState (handleAnswerChange s v).testState
        (s.questions.getD s.currentQuestionIndex "")).selected_answer = v
  ∧ (v ≠ .vNull → v ≠ .vStr "" →
      (getQuestionState (handleAnswerChange s v).testState
          (s.questions.getD s.currentQuestionIndex "")).status = .answered)
  ∧ (v = .vNull ∨ v = .vStr "" →
      (getQuestionState (handleAnswerChange s v).testState
          (s.questions.getD s.currentQuestionIndex "")).status = .unanswered)
  ∧ (getQuestionState (handleAnswerChange s v).testState
        (s.questions.getD s.currentQuestionIndex "")).status ≠ .marked_for_review := by
  unfold handleAnswerChange
  simp only [getQuestionState_setQState_same]
  refine ⟨by trivial, ?_, ?_, ?_⟩
  · intro hn he
    cases v with
    | vNull => exact absurd rfl hn
    | vStr t =>
      cases ht : t == "" with
      | true => exact absurd (by simpa using ht) (by simpa using he)
      | false =>
        have : t ≠ "" := by simpa using ht
        simp [this]
    | vUndefined => rfl
    | vNum q => rfl
    | vBool b => rfl
    | vArr xs => rfl
  · rintro (rfl | rfl) <;> rfl
  · cases v with
    | vNull => simp
    | vStr t =>
      cases ht : t == "" with
      | true =>
        have : t = "" := by simpa using ht
        subst this
        simp
      | false =>
        have : t ≠ "" := by simpa using ht
        simp [this]
    | vUndefined => simp
    | vNum q => simp
    | vBool b => simp
    | vArr xs => simp

/-- C8 (witness): editing the answer to `"B"` on a question previously
marked for review stores the answer and the `answered` status. -/
theorem answer_change_overwrites_witness :
    (let s : TestPageState :=
      { questions := ["a"], currentQuestionIndex := 0
        testState := [("a", ⟨.marked_for_review, .vStr "A", 0⟩)] }
    (getQuestionState (handleAnswerChange s (Value.vStr "B")).testState
        (s.questions.getD s.currentQuestionIndex "")).selected_answer = Value.vStr "B"
  ∧ (Value.vStr "B" ≠ Value.vNull → Value.vStr "B" ≠ Value.vStr "" →
      (getQuestionState (handleAnswerChange s (Value.vStr "B")).testState
          (s.questions.getD s.currentQuestionIndex "")).status = .answered)
  ∧ (Value.vStr "B" = Value.vNull ∨ Value.vStr "B" = Value.vStr "" →
      (getQuestionState (handleAnswerChange s (Value.vStr "B")).testState
          (s.questions.getD s.currentQuestionIndex "")).status = .unanswered)
  ∧ (getQuestionState (handleAnswerChange s (Value.vStr "B")).testState
        (s.questions.getD s.currentQuestionIndex "")).status ≠ .marked_for_review) :=
  answer_change_overwrites _ (Value.vStr "B") (by decide)

/-- C9: in both scoring paths, a question link whose joined Question row
cannot be resolved is skipped entirely: deleting it from the link list
changes nothing — not the totals, not any subject bucket, not the report's
question list, and not the server counters or final score.  In particular it
is not counted as UNATTEMPTED. -/
theorem malformed_rows_skipped (answers : AnswerMap) (pre post : List Link) (link : Link) :
    (resolveClient link.questions = none →
      generateReport answers (pre ++ link :: post) = generateReport answers (pre ++ post))
  ∧ (resolveServer link.questions = none →
      serverCounts answers (pre ++ link :: post) = serverCounts answers (pre ++ post)
    ∧ serverFinalScore answers (pre ++ link :: post) = serverFinalScore answers (pre ++ post)) := by
  constructor
  · intro h
    have hskip : ∀ acc, processLink answers acc link = acc := by
      intro acc
      unfold processLink
      rw [h]
    unfold generateReport
    rw [List.foldl_append, List.foldl_append, List.foldl_cons, hskip]
  · intro h
    have hskip : ∀ acc, serverProcess answers acc link = acc := by
      intro acc
      unfold serverProcess
      rw [h]
    have hcounts : serverCounts answers (pre ++ link :: post) = serverCounts answers (pre ++ post) := by
      unfold serverCounts
      rw [List.foldl_append, List.foldl_append, List.foldl_cons, hskip]
    exact ⟨hcounts, by unfold serverFinalScore; rw [hcounts]⟩

/-- C9 (witness): a link row with no joined Question data, spliced before a
well-formed row, leaves both paths' results unchanged. -/
theorem malformed_rows_skipped_witness :
    (let good : Link :=
      { question_number := 2, questions := QuestionsField.arr
          [some { question_id := "q2", question_type := "SINGLE_CHOICE", subject := some "PHYSICS"
                  correct_answer := Value.vArr [Value.vStr "B"]
                  question_text := none, solution_text := none }] }
    let bad : Link := { question_number := 1, questions := QuestionsField.missing }
    let answers : AnswerMap := [("q2", Value.vStr "B")]
    generateReport answers ([] ++ bad :: [good]) = generateReport answers ([] ++ [good])
  ∧ serverCounts answers ([] ++ bad :: [good]) = serverCounts answers ([] ++ [good])
  ∧ serverFinalScore answers ([] ++ bad :: [good]) = serverFinalScore answers ([] ++ [good])) := by
  obtain ⟨hc, hs⟩ := malformed_rows_skipped
    [("q2", Value.vStr "B")] []
    [{ question_number := 2, questions := QuestionsField.arr
        [some { question_id := "q2", question_type := "SINGLE_CHOICE", subject := some "PHYSICS"
                correct_answer := Value.vArr [Value.vStr "B"]
                question_text := none, solution_text := none }] }]
    { question_number := 1, questions := QuestionsField.missing }
  exact ⟨hc rfl, (hs rfl).1, (hs rfl).2⟩

/-- C10: a stored `selected_answer` that is falsy (in particular the empty
string, the number 0, or `false`) is collapsed to `null` by the
`answerMap.get(...) || null` lookup, so in both scoring paths the question is
classified UNATTEMPTED: it moves neither correct nor incorrect counter (so
it contributes 0 to every score) and is never judged CORRECT or
INCORRECT. -/
theorem falsy_answer_unattempted (v : Value) (answers : AnswerMap) (qid : String)
    (q : QuestionRow) (n : Int) (hv : truthy v = false)
    (hfind : List.find? (fun p => p.1 == qid) answers = some (qid, v))
    (hq : q.question_id = qid) :
    lookupAnswer answers qid = Value.vNull
  ∧ clientClassifyLink answers { question_number := n, questions := QuestionsField.arr [some q] }
      = some RStatus.UNATTEMPTED
  ∧ serverClassifyLink answers { question_number := n, questions := QuestionsField.arr [some q] }
      = some RStatus.UNATTEMPTED
  ∧ (∀ acc, (processLink answers acc
        { question_number := n, questions := QuestionsField.arr [some q] }).totalCorrect
          = acc.totalCorrect
      ∧ (processLink answers acc
        { question_number := n, questions := QuestionsField.arr [some q] }).totalIncorrect
          = acc.totalIncorrect)
  ∧ (∀ acc, serverProcess answers acc
        { question_number := n, questions := QuestionsField.arr [some q] } = acc) := by
  have hnull : lookupAnswer answers qid = Value.vNull := by
    unfold lookupAnswer
    rw [hfind]
    simp [hv]
  have hclient : clientClassifyLink answers
      { question_number := n, questions := QuestionsField.arr [some q] }
        = some RStatus.UNATTEMPTED := by
    unfold clientClassifyLink
    show some (classifyClient q (lookupAnswer answers q.question_id)) = _
    rw [hq, hnull]
    rfl
  have hserver : serverClassifyLink answers
      { question_number := n, questions := QuestionsField.arr [some q] }
        = some RStatus.UNATTEMPTED := by
    unfold serverClassifyLink
    show some (serverClassify q (lookupAnswer answers q.question_id)) = _
    rw [hq, hnull]
    rfl
  refine ⟨hnull, hclient, hserver, ?_, ?_⟩
  · intro acc
    obtain ⟨pc, pi, -⟩ := processLink_totals answers acc
      { question_number := n, questions := QuestionsField.arr [some q] }
    rw [pc, pi, hclient]
    exact ⟨by simp, by simp⟩
  · intro acc
    show serverProcess answers acc _ = acc
    unfold serverProcess
    show (match resolveServer (QuestionsField.arr [some q]) with
          | none => acc
          | some q => _) = acc
    show (match lookupAnswer answers q.question_id with
          | Value.vNull => acc
          | _ => _) = acc
    rw [hq, hnull]

/-- C10 (witness): a persisted NUMERICAL answer equal to the number 0 is
classified UNATTEMPTED by both paths. -/
theorem falsy_answer_unattempted_witness :
    (let q : QuestionRow :=
      { question_id := "q3", question_type := "NUMERICAL", subject := some "MATHS"
        correct_answer := Value.vArr [Value.vNum 0]
        question_text := none, solution_text := none }
    let answers : AnswerMap := [("q3", Value.vNum 0)]
    lookupAnswer answers "q3" = Value.vNull
  ∧ clientClassifyLink answers { question_number := 3, questions := QuestionsField.arr [some q] }
      = some RStatus.UNATTEMPTED
  ∧ serverClassifyLink answers { question_number := 3, questions := QuestionsField.arr [some q] }
      = some RStatus.UNATTEMPTED
  ∧ (∀ acc, (processLink answers acc
        { question_number := 3, questions := QuestionsField.arr [some q] }).totalCorrect
          = acc.totalCorrect
      ∧ (processLink answers acc
        { question_number := 3, questions := QuestionsField.arr [some q] }).totalIncorrect
          = acc.totalIncorrect)
  ∧ (∀ acc, serverProcess answers acc
        { question_number := 3, questions := QuestionsField.arr [some q] } = acc)) :=
  falsy_answer_unattempted (Value.vNum 0) _ "q3" _ 3 (by simp [truthy]) rfl rfl

/-- C3: for every question type and every correct-answer value,
`isAnswerCorrect` returns `false` when the selection is `null`, `undefined`
or the empty string; for every selection it returns `false` when
`correct_answer` is not a non-empty array; and any unexpected question type
also yields `false`.  The function is total — the embedding has no partial
operation, so it can never throw. -/
theorem judge_guards (qType : String) (selected correct : Value) :
    ((selected = .vNull ∨ selected = .vUndefined ∨ selected = .vStr "") →
      isAnswerCorrect qType selected correct = false)
  ∧ ((∀ c cs, correct ≠ .vArr (c :: cs)) → isAnswerCorrect qType selected correct = false)
  ∧ (qType ≠ "SINGLE_CHOICE" → qType ≠ "NUMERICAL" →
      isAnswerCorrect qType selected correct = false) := by
  refine ⟨?_, ?_, ?_⟩
  · rintro (rfl | rfl | rfl) <;> rfl
  · intro h
    unfold isAnswerCorrect
    split
    · rfl
    · cases correct with
      | vArr xs =>
        cases xs with
        | nil => rfl
        | cons c cs => exact absurd rfl (h c cs)
      | vNull => rfl
      | vUndefined => rfl
      | vStr s => rfl
      | vNum q => rfl
      | vBool b => rfl
  · intro h1 h2
    unfold isAnswerCorrect
    split
    · rfl
    · cases correct with
      | vArr xs =>
        cases xs with
        | nil => rfl
        | cons c cs =>
          rw [show (qType == "SINGLE_CHOICE") = false by simpa using h1,
              show (qType == "NUMERICAL") = false by simpa using h2]
          rfl
      | vNull => rfl
      | vUndefined => rfl
      | vStr s => rfl
      | vNum q => rfl
      | vBool b => rfl

/-- C3 (witness): the three guards at concrete inputs — a `null` selection, a
selection against an empty `correct_answer` array, and an unexpected
question type. -/
theorem judge_guards_witness :
    isAnswerCorrect "SINGLE_CHOICE" Value.vNull (Value.vArr [Value.vStr "A"]) = false
  ∧ isAnswerCorrect "SINGLE_CHOICE" (Value.vStr "A") (Value.vArr []) = false
  ∧ isAnswerCorrect "MATRIX_MATCH" (Value.vStr "A") (Value.vArr [Value.vStr "A"]) = false := by
  refine ⟨(judge_guards "SINGLE_CHOICE" Value.vNull (Value.vArr [Value.vStr "A"])).1 (Or.inl rfl),
    (judge_guards "SINGLE_CHOICE" (Value.vStr "A") (Value.vArr [])).2.1 ?_,
    (judge_guards "MATRIX_MATCH" (Value.vStr "A") (Value.vArr [Value.vStr "A"])).2.2
      (by decide) (by decide)⟩
  intro c cs
  simp

/-- C4: for NUMERICAL questions with a non-empty selection, the judge is
exactly "parse both the selection and the first element of `correct_answer`
with `parseFloat`; `false` if either parse fails; otherwise correct iff the
absolute difference is strictly below 0.01"; in particular 9.995 against
`[10]` is correct (difference 0.005) and 9.98 against `[10]` is incorrect
(difference 0.02). -/
theorem judge_numerical (selected c : Value) (rest : List Value)
    (h1 : selected ≠ .vNull) (h2 : selected ≠ .vUndefined) (h3 : selected ≠ .vStr "") :
    isAnswerCorrect "NUMERICAL" selected (.vArr (c :: rest))
      = (match parseFloatV selected, parseFloatV c with
         | some selectedNum, some correctNum => decide (|correctNum - selectedNum| < 1 / 100)
         | _, _ => false)
  ∧ isAnswerCorrect "NUMERICAL" (.vNum (9995 / 1000)) (.vArr [.vNum 10]) = true
  ∧ isAnswerCorrect "NUMERICAL" (.vNum (998 / 100)) (.vArr [.vNum 10]) = false := by
  have hempty : isEmptySelected selected = false := by
    cases selected <;> simp_all [isEmptySelected]
  have hns : ("NUMERICAL" : String) ≠ "SINGLE_CHOICE" := by decide
  refine ⟨?_, ?_, ?_⟩
  · unfold isAnswerCorrect
    rw [hempty]
    rfl
  · simp [isAnswerCorrect, isEmptySelected, parseFloatV, hns]
    rw [abs_lt]
    constructor <;> norm_num
  · simp [isAnswerCorrect, isEmptySelected, parseFloatV, hns]
    rw [le_abs]
    left
    norm_num

/-- C4 (witness): the parse-and-tolerance characterisation applied to the
selection 9.995 as a decimal string, where both sides parse and the
difference 0.005 is inside the tolerance. -/
theorem judge_numerical_witness :
    isAnswerCorrect "NUMERICAL" (Value.vStr "9.995") (Value.vArr [Value.vNum 10])
      = (match parseFloatV (Value.vStr "9.995"), parseFloatV (Value.vNum 10) with
         | some selectedNum, some correctNum => decide (|correctNum - selectedNum| < 1 / 100)
         | _, _ => false)
  ∧ isAnswerCorrect "NUMERICAL" (Value.vNum (9995 / 1000)) (Value.vArr [Value.vNum 10]) = true
  ∧ isAnswerCorrect "NUMERICAL" (Value.vNum (998 / 100)) (Value.vArr [Value.vNum 10]) = false :=
  judge_numerical (Value.vStr "9.995") (Value.vNum 10) []
    (by simp) (by simp) (by simp)

end JeeTest
